import Mathlib

/-!
# Shallow embedding of `src/analyze.py`

`compute_metrics` reads the tidy observation table (columns `practice_code`,
`month`, `items`, `list_size`), aggregates items and list sizes per practice,
computes prescribing rates per 1000 patients, funnel-plot control limits at
z = 1.96 and z = 3.09, and flags outliers against the 99.8% band.

Numeric cells are modelled as exact rationals (the source computes in IEEE
floating point; the claims are about the algebra of the computation, which we
take at real-number precision).  pandas `NaN` — the undefined sentinel — is
modelled as `Option.none`, and float comparisons involving `NaN`, which are
always false in IEEE, are modelled by `gtOpt`/`ltOpt` below.
-/

namespace Analyze

/-- One cell of the raw tidy table.  `missing` is pandas `NaN`/absent; `num q`
is a numeric value (numbers, and numeric strings that `pd.to_numeric` parses);
`txt` is non-numeric text, which `pd.to_numeric(errors="coerce")` turns into
`NaN`. -/
inductive Cell where
  | missing : Cell
  | num : ℚ → Cell
  | txt : Cell
deriving DecidableEq

/-- One row of the tidy input table (the output contract of `clean.py`). -/
structure Row where
  practice_code : String
  month : String
  items : Cell
  list_size : Cell
deriving DecidableEq

/-- The numeric-coercion pipeline applied to both value columns:
`pd.to_numeric(col, errors="coerce").fillna(0)` (for `list_size` preceded by
`fillna(0)`, which commutes with it): a numeric cell keeps its value, a
missing cell or unparseable text becomes 0. -/
def coerceNum : Cell → ℚ
  | Cell.num q => q
  | _ => 0

/-- `df.dropna(subset=["items"])` (line 47): rows whose `items` cell is
missing are discarded before any aggregation. -/
def retained (df : List Row) : List Row :=
  df.filter (fun r => r.items ≠ Cell.missing)

/-- The distinct practice codes among retained rows: the group keys of
`df.groupby("practice_code")` (line 54).  pandas sorts group keys; we keep
a deduplicated occurrence order instead, which affects only the order of the
output rows, never any row's content. -/
def entityIds (df : List Row) : List String :=
  ((retained df).map Row.practice_code).dedup

/-- `total_items = ("items", "sum")` within each group (line 55). -/
def total_items (df : List Row) (e : String) : ℚ :=
  (((retained df).filter (fun r => r.practice_code = e)).map
    (fun r => coerceNum r.items)).sum

/-- `total_list_size = ("list_size", "sum")` within each group (line 56). -/
def total_list_size (df : List Row) (e : String) : ℚ :=
  (((retained df).filter (fun r => r.practice_code = e)).map
    (fun r => coerceNum r.list_size)).sum

/-- `rate_per_1000 = np.where(total_list_size > 0, total_items /
total_list_size * 1000.0, np.nan)` (lines 59–63). -/
def rate_per_1000 (df : List Row) (e : String) : Option ℚ :=
  if 0 < total_list_size df e then
    some (total_items df e / total_list_size df e * 1000)
  else none

/-- The defined (non-NaN) entries of the `rate_per_1000` column, one per
group key. -/
def definedRates (df : List Row) : List ℚ :=
  (entityIds df).filterMap (fun e => rate_per_1000 df e)

/-- `mean_rate = grouped["rate_per_1000"].mean(skipna=True)` (line 66): the
arithmetic mean of the defined rates, NaN when every rate is NaN. -/
def mean_rate (df : List Row) : Option ℚ :=
  if definedRates df = [] then none
  else some ((definedRates df).sum / (definedRates df).length)

/-- The `limits` closure (lines 69–76): given the run's `mean_rate` and an
entity's `size`, return `(upper, lower)` at multiplier `z`, or `(NaN, NaN)`
when `size <= 0` or `mean_rate` is NaN. -/
noncomputable def limits (meanRate : Option ℝ) (size z : ℝ) :
    Option ℝ × Option ℝ :=
  match meanRate with
  | none => (none, none)
  | some m =>
      if size ≤ 0 then (none, none)
      else
        (some (m + z * Real.sqrt (m / size)), some (m - z * Real.sqrt (m / size)))

/-- `mean_rate` as the real number fed to `limits`. -/
noncomputable def meanRateR (df : List Row) : Option ℝ :=
  (mean_rate df).map (fun q => (q : ℝ))

/-- `row["total_list_size"] / 1000.0`, the size argument of `limits`
(lines 80–81). -/
noncomputable def entitySize (df : List Row) (e : String) : ℝ :=
  ((total_list_size df e : ℚ) : ℝ) / 1000

/-- Column `ucl95`: first component of `limits(size, 1.96)` (line 80). -/
noncomputable def ucl95 (df : List Row) (e : String) : Option ℝ :=
  (limits (meanRateR df) (entitySize df e) 1.96).1

/-- Column `lcl95`: second component of `limits(size, 1.96)` (line 80). -/
noncomputable def lcl95 (df : List Row) (e : String) : Option ℝ :=
  (limits (meanRateR df) (entitySize df e) 1.96).2

/-- Column `ucl998`: first component of `limits(size, 3.09)` (line 81). -/
noncomputable def ucl998 (df : List Row) (e : String) : Option ℝ :=
  (limits (meanRateR df) (entitySize df e) 3.09).1

/-- Column `lcl998`: second component of `limits(size, 3.09)` (line 81). -/
noncomputable def lcl998 (df : List Row) (e : String) : Option ℝ :=
  (limits (meanRateR df) (entitySize df e) 3.09).2

/-- IEEE `r > bound` where `bound` may be NaN: comparison with NaN is false. -/
def gtOpt (r : ℝ) : Option ℝ → Prop
  | none => False
  | some u => u < r

/-- IEEE `r < bound` where `bound` may be NaN: comparison with NaN is false. -/
def ltOpt (r : ℝ) : Option ℝ → Prop
  | none => False
  | some l => r < l

open Classical in
/-- The row-wise `classify` callback (lines 94–102): `""` for a NaN rate,
`"high"` when the rate strictly exceeds `ucl998`, `"low"` when strictly below
`lcl998`, `""` otherwise. -/
noncomputable def classify (rate u998 l998 : Option ℝ) : String :=
  match rate with
  | none => ""
  | some r => if gtOpt r u998 then "high" else if ltOpt r l998 then "low" else ""

/-- One row of the metrics table returned by `compute_metrics`. -/
structure MetricsRow where
  practice_code : String
  total_items : ℚ
  total_list_size : ℚ
  rate_per_1000 : Option ℚ
  mean_rate : Option ℚ
  ucl95 : Option ℝ
  lcl95 : Option ℝ
  ucl998 : Option ℝ
  lcl998 : Option ℝ
  outlier : String

/-- The metrics row built for one group key of a non-empty input. -/
noncomputable def mkMetricsRow (df : List Row) (e : String) : MetricsRow where
  practice_code := e
  total_items := total_items df e
  total_list_size := total_list_size df e
  rate_per_1000 := rate_per_1000 df e
  mean_rate := mean_rate df
  ucl95 := ucl95 df e
  lcl95 := lcl95 df e
  ucl998 := ucl998 df e
  lcl998 := lcl998 df e
  outlier :=
    classify ((rate_per_1000 df e).map (fun q => (q : ℝ))) (ucl998 df e)
      (lcl998 df e)

/-- A pandas DataFrame abstracted to its column order and its rows. -/
structure Frame where
  cols : List String
  rows : List MetricsRow

/-- Column order of the early-return empty frame (lines 40–44). -/
def emptyCols : List String :=
  ["practice_code", "total_items", "total_list_size", "rate_per_1000",
   "mean_rate", "ucl95", "ucl998", "lcl95", "lcl998", "outlier"]

/-- Column order of the non-empty result: `reset_index` puts the group key
first, then the two named aggregates, then the remaining columns in
assignment order (lines 59, 87–91, 104). -/
def groupedCols : List String :=
  ["practice_code", "total_items", "total_list_size", "rate_per_1000",
   "mean_rate", "ucl95", "lcl95", "ucl998", "lcl998", "outlier"]

/-- `compute_metrics` (lines 25–106): empty input short-circuits to an empty
frame; otherwise one metrics row per group key. -/
noncomputable def compute_metrics (df : List Row) : Frame :=
  if df.isEmpty then ⟨emptyCols, []⟩
  else ⟨groupedCols, (entityIds df).map (mkMetricsRow df)⟩

/-- The end-to-end example input of the spec (§8): practice A with 10 items
on a list of 1000, practice B with 100 items on a list of 1000. -/
def exDf : List Row :=
  [⟨"A", "2024-01", Cell.num 10, Cell.num 1000⟩,
   ⟨"B", "2024-01", Cell.num 100, Cell.num 1000⟩]

/-- A fresh practice Z with one observation whose list size is missing, to
be appended to `exDf`. -/
def appDf : List Row :=
  [⟨"Z", "2024-02", Cell.num 5, Cell.missing⟩]

/-- Two practices with zero prescribing: equal zero ratio, different list
sizes (1000 vs 2000). -/
def zeroDf : List Row :=
  [⟨"A", "2024-01", Cell.num 0, Cell.num 1000⟩,
   ⟨"B", "2024-01", Cell.num 0, Cell.num 2000⟩]

/-- Two practices with the same positive prescribing ratio (1%) but
different list sizes. -/
def monoDf : List Row :=
  [⟨"A", "2024-01", Cell.num 10, Cell.num 1000⟩,
   ⟨"B", "2024-01", Cell.num 20, Cell.num 2000⟩]

/-- A degenerate input: one observation with a defined numerator but a
missing list size, so its entity has `total_list_size = 0`. -/
def degDf : List Row :=
  [⟨"A", "2024-01", Cell.num 5, Cell.missing⟩]

/-! ## Basic lemmas about the embedding -/

theorem retained_append (df rs : List Row) :
    retained (df ++ rs) = retained df ++ retained rs := by
  simp [retained]

theorem nodup_entityIds (df : List Row) : (entityIds df).Nodup :=
  List.nodup_dedup _

theorem mem_entityIds {df : List Row} {e : String} :
    e ∈ entityIds df ↔ ∃ r ∈ df, r.practice_code = e ∧ r.items ≠ Cell.missing := by
  simp only [entityIds, List.mem_dedup, List.mem_map, retained, List.mem_filter,
    decide_not, Bool.not_eq_eq_eq_not, Bool.not_true, decide_eq_false_iff_not]
  constructor
  · rintro ⟨r, ⟨hr, hi⟩, rfl⟩
    exact ⟨r, hr, rfl, hi⟩
  · rintro ⟨r, hr, rfl, hi⟩
    exact ⟨r, ⟨hr, hi⟩, rfl⟩

theorem total_list_size_nonneg {df : List Row} (e : String)
    (hval : ∀ r ∈ df, ∀ q, r.list_size = Cell.num q → 0 ≤ q) :
    0 ≤ total_list_size df e := by
  apply List.sum_nonneg
  intro x hx
  simp only [total_list_size, List.mem_map, List.mem_filter, retained] at hx
  obtain ⟨r, ⟨⟨hrdf, _⟩, _⟩, rfl⟩ := hx
  cases h : r.list_size with
  | num q => simpa [coerceNum, h] using hval r hrdf q h
  | missing => simp [coerceNum, h]
  | txt => simp [coerceNum, h]

theorem rate_eq_none_iff {df : List Row} {e : String} :
    rate_per_1000 df e = none ↔ ¬ 0 < total_list_size df e := by
  unfold rate_per_1000
  split <;> simp_all

theorem rate_of_pos {df : List Row} {e : String}
    (h : 0 < total_list_size df e) :
    rate_per_1000 df e =
      some (total_items df e / total_list_size df e * 1000) := by
  simp [rate_per_1000, h]

theorem mem_definedRates {df : List Row} {r : ℚ} :
    r ∈ definedRates df ↔ ∃ e ∈ entityIds df, rate_per_1000 df e = some r := by
  simp [definedRates, List.mem_filterMap]

theorem mean_rate_eq_none_iff {df : List Row} :
    mean_rate df = none ↔ definedRates df = [] := by
  unfold mean_rate
  split <;> simp_all

/-- The metrics rows of a non-empty input: one per group key. -/
theorem compute_metrics_rows {df : List Row} (h : df ≠ []) :
    (compute_metrics df).rows = (entityIds df).map (mkMetricsRow df) := by
  simp [compute_metrics, List.isEmpty_eq_false.mpr h]

/-! ## Lemmas about the limit computation -/

theorem meanRateR_eq_some {df : List Row} {m : ℚ} (h : mean_rate df = some m) :
    meanRateR df = some ((m : ℚ) : ℝ) := by
  simp [meanRateR, h]

theorem meanRateR_eq_none {df : List Row} (h : mean_rate df = none) :
    meanRateR df = none := by
  simp [meanRateR, h]

theorem limits_of_pos {m size z : ℝ} (h : 0 < size) :
    limits (some m) size z =
      (some (m + z * Real.sqrt (m / size)),
       some (m - z * Real.sqrt (m / size))) := by
  rw [limits, if_neg (not_le.mpr h)]

theorem limits_of_nonpos {m size z : ℝ} (h : size ≤ 0) :
    limits (some m) size z = (none, none) := by
  rw [limits, if_pos h]

/-- The 99.8% limits are both defined or both NaN, and when defined the lower
one does not exceed the upper one. -/
theorem lcl998_le_ucl998 {df : List Row} {e : String} {u l : ℝ}
    (hu : ucl998 df e = some u) (hl : lcl998 df e = some l) : l ≤ u := by
  unfold ucl998 at hu
  unfold lcl998 at hl
  cases hm : meanRateR df with
  | none => rw [hm] at hu; simp [limits] at hu
  | some m =>
      rw [hm] at hu hl
      by_cases hs : entitySize df e ≤ 0
      · rw [limits_of_nonpos hs] at hu
        simp at hu
      · rw [limits_of_pos (not_le.mp hs)] at hu hl
        simp only [Option.some.injEq] at hu hl
        have hz : 0 ≤ 3.09 * Real.sqrt (m / entitySize df e) := by
          positivity
        rw [← hu, ← hl]
        linarith

theorem ucl998_none_iff_lcl998_none {df : List Row} {e : String} :
    ucl998 df e = none ↔ lcl998 df e = none := by
  unfold ucl998 lcl998
  cases hm : meanRateR df with
  | none => simp [limits]
  | some m =>
      by_cases hs : entitySize df e ≤ 0
      · rw [limits_of_nonpos hs]
      · rw [limits_of_pos (not_le.mp hs)]
        simp

/-! ## Claim theorems -/

/-- C9: the empty input table yields a zero-row output frame carrying the
declared column set (group key, the two totals, the rate, the mean, the four
limits and the flag) — not an error and not an absent result. -/
theorem C9_empty_input_law :
    (compute_metrics []).rows = [] ∧
    (compute_metrics []).cols =
      ["practice_code", "total_items", "total_list_size", "rate_per_1000",
       "mean_rate", "ucl95", "ucl998", "lcl95", "lcl998", "outlier"] :=
  ⟨rfl, rfl⟩

/-- C10: the output column sequence differs between the empty and non-empty
branches although the column sets agree: the empty frame orders the limit
columns `ucl95, ucl998, lcl95, lcl998`, every non-empty frame orders them
`ucl95, lcl95, ucl998, lcl998`. -/
theorem C10_column_orders (df : List Row) (h : df ≠ []) :
    (compute_metrics []).cols =
      ["practice_code", "total_items", "total_list_size", "rate_per_1000",
       "mean_rate", "ucl95", "ucl998", "lcl95", "lcl998", "outlier"] ∧
    (compute_metrics df).cols =
      ["practice_code", "total_items", "total_list_size", "rate_per_1000",
       "mean_rate", "ucl95", "lcl95", "ucl998", "lcl998", "outlier"] ∧
    (compute_metrics []).cols ≠ (compute_metrics df).cols ∧
    ∀ c, c ∈ (compute_metrics []).cols ↔ c ∈ (compute_metrics df).cols := by
  have hc : (compute_metrics df).cols = groupedCols := by
    simp [compute_metrics, List.isEmpty_eq_false.mpr h]
  refine ⟨rfl, by rw [hc]; rfl, ?_, ?_⟩
  · rw [hc]
    decide
  · intro c
    rw [hc]
    show c ∈ emptyCols ↔ c ∈ groupedCols
    simp only [emptyCols, groupedCols, List.mem_cons, List.not_mem_nil]
    tauto

/-- Witness for C10 at the concrete two-row example input. -/
theorem C10_column_orders_witness :
    (compute_metrics []).cols ≠ (compute_metrics exDf).cols :=
  (C10_column_orders exDf (by decide)).2.2.1

/-- C1: under the input contract that list sizes are non-negative (spec §3),
a positive aggregated list size gives `rate = total_items / total_list_size *
1000`, and the rate is the NaN sentinel exactly when the aggregated list size
is zero. -/
theorem C1_rate_definedness (df : List Row) (e : String)
    (hval : ∀ r ∈ df, ∀ q, r.list_size = Cell.num q → 0 ≤ q)
    (he : e ∈ entityIds df) :
    (0 < total_list_size df e →
      rate_per_1000 df e =
        some (total_items df e / total_list_size df e * 1000)) ∧
    (rate_per_1000 df e = none ↔ total_list_size df e = 0) := by
  have hnn : 0 ≤ total_list_size df e := total_list_size_nonneg e hval
  refine ⟨rate_of_pos, ?_⟩
  rw [rate_eq_none_iff]
  constructor
  · intro hne
    exact le_antisymm (not_lt.mp hne) hnn
  · intro hz
    rw [hz]
    exact lt_irrefl 0

/-- Witness for C1 at the example input, entity A. -/
theorem C1_rate_definedness_witness :
    (0 < total_list_size exDf "A" →
      rate_per_1000 exDf "A" =
        some (total_items exDf "A" / total_list_size exDf "A" * 1000)) ∧
    (rate_per_1000 exDf "A" = none ↔ total_list_size exDf "A" = 0) :=
  C1_rate_definedness exDf "A"
    (by
      intro r hr q hq
      simp only [exDf, List.mem_cons, List.not_mem_nil, or_false] at hr
      rcases hr with rfl | rfl <;> simp_all <;> norm_num [← hq])
    (by decide)

/-- C5: the aggregation stage keys on exactly the practice codes that appear
in a row with a defined `items` cell (one group per code, no duplicates), and
each group's totals are the sums of the coerced `items` and `list_size`
values over exactly those input rows; missing and non-numeric cells coerce
to 0. -/
theorem C5_aggregation (df : List Row) :
    (entityIds df).Nodup ∧
    (∀ e, e ∈ entityIds df ↔
      ∃ r ∈ df, r.practice_code = e ∧ r.items ≠ Cell.missing) ∧
    (∀ e, total_items df e =
      ((df.filter (fun r => r.practice_code = e ∧ r.items ≠ Cell.missing)).map
        (fun r => coerceNum r.items)).sum) ∧
    (∀ e, total_list_size df e =
      ((df.filter (fun r => r.practice_code = e ∧ r.items ≠ Cell.missing)).map
        (fun r => coerceNum r.list_size)).sum) ∧
    coerceNum Cell.missing = 0 ∧ coerceNum Cell.txt = 0 := by
  refine ⟨nodup_entityIds df, fun e => mem_entityIds, ?_, ?_, rfl, rfl⟩
  · intro e
    simp [total_items, retained, List.filter_filter]
  · intro e
    simp [total_list_size, retained, List.filter_filter]

/-- Rows of a practice code absent from the group keys: the groupwise filter
is empty. -/
theorem retained_filter_eq_nil {df : List Row} {e : String}
    (h : e ∉ entityIds df) :
    (retained df).filter (fun r => r.practice_code = e) = [] := by
  rw [List.filter_eq_nil_iff]
  intro r hr hcode
  apply h
  rw [entityIds, List.mem_dedup]
  exact List.mem_map.mpr ⟨r, hr, by simpa using hcode⟩

theorem total_list_size_eq_zero_of_not_mem {df : List Row} {e : String}
    (h : e ∉ entityIds df) : total_list_size df e = 0 := by
  rw [total_list_size, retained_filter_eq_nil h]
  rfl

theorem totals_append_ne {df rs : List Row} {e e₀ : String}
    (hcodes : ∀ r ∈ rs, r.practice_code = e₀) (hne : e ≠ e₀) :
    total_items (df ++ rs) e = total_items df e ∧
    total_list_size (df ++ rs) e = total_list_size df e := by
  have hfil : (retained (df ++ rs)).filter (fun r => r.practice_code = e) =
      (retained df).filter (fun r => r.practice_code = e) := by
    rw [retained_append, List.filter_append]
    have h2 : (retained rs).filter (fun r => r.practice_code = e) = [] := by
      rw [List.filter_eq_nil_iff]
      intro r hr hcode
      have hc : r.practice_code = e₀ := hcodes r (List.mem_of_mem_filter hr)
      have hc' : r.practice_code = e := by simpa using hcode
      exact hne (hc' ▸ hc)
    rw [h2, List.append_nil]
  constructor
  · rw [total_items, total_items, hfil]
  · rw [total_list_size, total_list_size, hfil]

theorem rate_append_ne {df rs : List Row} {e e₀ : String}
    (hcodes : ∀ r ∈ rs, r.practice_code = e₀) (hne : e ≠ e₀) :
    rate_per_1000 (df ++ rs) e = rate_per_1000 df e := by
  obtain ⟨h1, h2⟩ := totals_append_ne hcodes hne
  rw [rate_per_1000, rate_per_1000, h1, h2]

theorem mem_entityIds_append {df rs : List Row} {e : String} :
    e ∈ entityIds (df ++ rs) ↔ e ∈ entityIds df ∨ e ∈ entityIds rs := by
  simp only [mem_entityIds, List.mem_append]
  constructor
  · rintro ⟨r, hr | hr, hcode, hit⟩
    · exact Or.inl ⟨r, hr, hcode, hit⟩
    · exact Or.inr ⟨r, hr, hcode, hit⟩
  · rintro (⟨r, hr, hcode, hit⟩ | ⟨r, hr, hcode, hit⟩)
    · exact ⟨r, Or.inl hr, hcode, hit⟩
    · exact ⟨r, Or.inr hr, hcode, hit⟩

theorem eq_of_mem_entityIds_codes {rs : List Row} {e₀ e : String}
    (hcodes : ∀ r ∈ rs, r.practice_code = e₀) (h : e ∈ entityIds rs) :
    e = e₀ := by
  obtain ⟨r, hr, hcode, _⟩ := mem_entityIds.mp h
  rw [← hcode]
  exact hcodes r hr

/-- Appending observations of a single fresh practice whose aggregated list
size is 0 permutes the defined-rate column without changing its entries. -/
theorem definedRates_append_perm {df rs : List Row} {e₀ : String}
    (hcodes : ∀ r ∈ rs, r.practice_code = e₀)
    (hnew : e₀ ∉ entityIds df)
    (hzero : total_list_size (df ++ rs) e₀ = 0) :
    (definedRates (df ++ rs)).Perm (definedRates df) := by
  have hrate0 : rate_per_1000 (df ++ rs) e₀ = none := by
    rw [rate_eq_none_iff, hzero]
    exact lt_irrefl 0
  have hratedf0 : rate_per_1000 df e₀ = none := by
    rw [rate_eq_none_iff, total_list_size_eq_zero_of_not_mem hnew]
    exact lt_irrefl 0
  have hcong : ∀ e ∈ entityIds (df ++ rs),
      (fun e => rate_per_1000 (df ++ rs) e) e = (fun e => rate_per_1000 df e) e := by
    intro e _
    by_cases heq : e = e₀
    · simp only [heq, hrate0, hratedf0]
    · exact rate_append_ne hcodes heq
  rw [definedRates, List.filterMap_congr hcong]
  by_cases hmem : e₀ ∈ entityIds (df ++ rs)
  · have hperm : (entityIds (df ++ rs)).Perm (e₀ :: entityIds df) := by
      rw [List.perm_ext_iff_of_nodup (nodup_entityIds _)
        (List.nodup_cons.mpr ⟨hnew, nodup_entityIds df⟩)]
      intro a
      rw [List.mem_cons, mem_entityIds_append]
      constructor
      · rintro (ha | ha)
        · exact Or.inr ha
        · exact Or.inl (eq_of_mem_entityIds_codes hcodes ha)
      · rintro (rfl | ha)
        · exact mem_entityIds_append.mp hmem
        · exact Or.inl ha
    have hp2 := hperm.filterMap (fun e => rate_per_1000 df e)
    rwa [List.filterMap_cons_none hratedf0] at hp2
  · have hperm : (entityIds (df ++ rs)).Perm (entityIds df) := by
      rw [List.perm_ext_iff_of_nodup (nodup_entityIds _) (nodup_entityIds df)]
      intro a
      constructor
      · intro ha
        rcases mem_entityIds_append.mp ha with h | h
        · exact h
        · exact absurd ((eq_of_mem_entityIds_codes hcodes h) ▸ ha) hmem
      · intro ha
        exact mem_entityIds_append.mpr (Or.inl ha)
    exact hperm.filterMap _

/-- C4: the population mean is the unweighted mean of exactly the defined
per-entity rates, and appending observations for a fresh entity whose
aggregated list size is 0 leaves it unchanged. -/
theorem C4_mean_exclusion (df rs : List Row) (e₀ : String)
    (hcodes : ∀ r ∈ rs, r.practice_code = e₀)
    (hnew : e₀ ∉ entityIds df)
    (hzero : total_list_size (df ++ rs) e₀ = 0) :
    (mean_rate df = none ↔ definedRates df = []) ∧
    (definedRates df ≠ [] →
      mean_rate df =
        some ((definedRates df).sum / (definedRates df).length)) ∧
    mean_rate (df ++ rs) = mean_rate df := by
  refine ⟨mean_rate_eq_none_iff, ?_, ?_⟩
  · intro h
    rw [mean_rate, if_neg h]
  · have hperm := definedRates_append_perm hcodes hnew hzero
    by_cases hnil : definedRates df = []
    · have h2 : definedRates (df ++ rs) = [] := by
        rw [← List.length_eq_zero] at hnil ⊢
        rw [hperm.length_eq]
        exact hnil
      rw [mean_rate, mean_rate, if_pos hnil, if_pos h2]
    · have h2 : definedRates (df ++ rs) ≠ [] := by
        intro h
        apply hnil
        rw [← List.length_eq_zero] at h ⊢
        rw [← hperm.length_eq]
        exact h
      rw [mean_rate, mean_rate, if_neg hnil, if_neg h2, hperm.sum_eq,
        hperm.length_eq]

/-- Witness for C4: appending a fresh practice Z with a missing list size to
the two-practice example leaves the mean at 55. -/
theorem C4_mean_exclusion_witness :
    (mean_rate exDf = none ↔ definedRates exDf = []) ∧
    (definedRates exDf ≠ [] →
      mean_rate exDf =
        some ((definedRates exDf).sum / (definedRates exDf).length)) ∧
    mean_rate (exDf ++ appDf) = mean_rate exDf :=
  C4_mean_exclusion exDf appDf "Z"
    (by
      intro r hr
      simp only [appDf, List.mem_singleton] at hr
      subst hr
      rfl)
    (by decide)
    (by simp [total_list_size, retained, coerceNum, exDf, appDf, List.filter])

/-- C2: with a defined population mean `m` and positive size
`s = total_list_size / 1000`, the four control limits are
`m ± z * sqrt(m / s)` with `z = 1.96` resp. `z = 3.09`, and all four are
carried on the output row; with `s ≤ 0` or an undefined mean all four are
the NaN sentinel (and nothing is raised — the function is total). -/
theorem C2_control_limits (df : List Row) (e : String) :
    (∀ m : ℚ, mean_rate df = some m → 0 < entitySize df e →
      ucl95 df e =
        some ((m : ℝ) + 1.96 * Real.sqrt ((m : ℝ) / entitySize df e)) ∧
      lcl95 df e =
        some ((m : ℝ) - 1.96 * Real.sqrt ((m : ℝ) / entitySize df e)) ∧
      ucl998 df e =
        some ((m : ℝ) + 3.09 * Real.sqrt ((m : ℝ) / entitySize df e)) ∧
      lcl998 df e =
        some ((m : ℝ) - 3.09 * Real.sqrt ((m : ℝ) / entitySize df e))) ∧
    (entitySize df e ≤ 0 ∨ mean_rate df = none →
      ucl95 df e = none ∧ lcl95 df e = none ∧
      ucl998 df e = none ∧ lcl998 df e = none) ∧
    (∀ row ∈ (compute_metrics df).rows,
      row.ucl95 = ucl95 df row.practice_code ∧
      row.lcl95 = lcl95 df row.practice_code ∧
      row.ucl998 = ucl998 df row.practice_code ∧
      row.lcl998 = lcl998 df row.practice_code) := by
  refine ⟨?_, ?_, ?_⟩
  · intro m hm hs
    have hm' := meanRateR_eq_some hm
    unfold ucl95 lcl95 ucl998 lcl998
    rw [hm', limits_of_pos hs, limits_of_pos hs]
    exact ⟨rfl, rfl, rfl, rfl⟩
  · rintro (hs | hm)
    · unfold ucl95 lcl95 ucl998 lcl998
      cases hm : meanRateR df with
      | none => simp [limits]
      | some m =>
          rw [limits_of_nonpos hs, limits_of_nonpos hs]
          exact ⟨rfl, rfl, rfl, rfl⟩
    · have hm' := meanRateR_eq_none hm
      unfold ucl95 lcl95 ucl998 lcl998
      rw [hm']
      simp [limits]
  · intro row hrow
    cases df with
    | nil => simp [compute_metrics] at hrow
    | cons a l =>
        rw [compute_metrics_rows (List.cons_ne_nil a l)] at hrow
        obtain ⟨e', _, rfl⟩ := List.mem_map.mp hrow
        exact ⟨rfl, rfl, rfl, rfl⟩

/-- Witness for C2 at the example input, entity A, mean 55, size 1. -/
theorem C2_control_limits_witness :
    ucl95 exDf "A" =
      some (((55 : ℚ) : ℝ) + 1.96 * Real.sqrt (((55 : ℚ) : ℝ) / entitySize exDf "A")) ∧
    lcl95 exDf "A" =
      some (((55 : ℚ) : ℝ) - 1.96 * Real.sqrt (((55 : ℚ) : ℝ) / entitySize exDf "A")) ∧
    ucl998 exDf "A" =
      some (((55 : ℚ) : ℝ) + 3.09 * Real.sqrt (((55 : ℚ) : ℝ) / entitySize exDf "A")) ∧
    lcl998 exDf "A" =
      some (((55 : ℚ) : ℝ) - 3.09 * Real.sqrt (((55 : ℚ) : ℝ) / entitySize exDf "A")) :=
  (C2_control_limits exDf "A").1 55
    (by
      simp [mean_rate, definedRates, entityIds, rate_per_1000, total_items,
        total_list_size, retained, coerceNum, exDf, List.filter, List.dedup]
      norm_num)
    (by
      have h : total_list_size exDf "A" = 1000 := by
        simp [total_list_size, retained, coerceNum, exDf, List.filter]
      rw [entitySize, h]
      norm_num)

open Classical in
/-- `classify` on a defined rate with both limits defined and consistently
ordered: the strict comparisons decide the label. -/
theorem classify_spec (r u l : ℝ) (hlu : l ≤ u) :
    (classify (some r) (some u) (some l) = "high" ↔ u < r) ∧
    (classify (some r) (some u) (some l) = "low" ↔ r < l) ∧
    (classify (some r) (some u) (some l) = "" ↔ ¬ u < r ∧ ¬ r < l) := by
  by_cases hg : u < r
  · have hnl : ¬ r < l := by linarith
    simp [classify, gtOpt, ltOpt, hg, hnl]
  · by_cases hl : r < l
    · simp [classify, gtOpt, ltOpt, hg, hl]
    · simp [classify, gtOpt, ltOpt, hg, hl]

/-- A defined rate forces a positive size and a defined mean, hence defined
99.8% limits. -/
theorem limits998_defined_of_rate {df : List Row} {e : String} {r : ℚ}
    (he : e ∈ entityIds df) (hr : rate_per_1000 df e = some r) :
    ∃ m : ℚ, mean_rate df = some m ∧ 0 < entitySize df e ∧
      ucl998 df e =
        some ((m : ℝ) + 3.09 * Real.sqrt ((m : ℝ) / entitySize df e)) ∧
      lcl998 df e =
        some ((m : ℝ) - 3.09 * Real.sqrt ((m : ℝ) / entitySize df e)) := by
  have htls : 0 < total_list_size df e := by
    by_contra h
    rw [← rate_eq_none_iff] at h
    rw [hr] at h
    exact Option.some_ne_none r h
  have hs : 0 < entitySize df e := by
    rw [entitySize]
    have : (0 : ℝ) < ((total_list_size df e : ℚ) : ℝ) := by exact_mod_cast htls
    positivity
  have hdr : r ∈ definedRates df := mem_definedRates.mpr ⟨e, he, hr⟩
  have hne : definedRates df ≠ [] := List.ne_nil_of_mem hdr
  refine ⟨(definedRates df).sum / (definedRates df).length, ?_, hs, ?_, ?_⟩
  · rw [mean_rate, if_neg hne]
  · unfold ucl998
    rw [meanRateR_eq_some (by rw [mean_rate, if_neg hne]), limits_of_pos hs]
  · unfold lcl998
    rw [meanRateR_eq_some (by rw [mean_rate, if_neg hne]), limits_of_pos hs]

/-- C3: every output row carries a flag computed purely from its own rate and
99.8% limits; the flag is `"high"` iff the rate is defined and strictly above
`ucl998`, `"low"` iff defined and strictly below `lcl998`, and `""` otherwise
— in particular on either boundary and on an undefined rate, whose row is
still produced (one row per group key, never dropped). -/
theorem C3_outlier_classification (df : List Row) :
    (compute_metrics df).rows.length = (entityIds df).length ∧
    ∀ row ∈ (compute_metrics df).rows,
      row.outlier =
        classify ((row.rate_per_1000).map (fun q => (q : ℝ))) row.ucl998
          row.lcl998 ∧
      (row.outlier = "high" ↔
        ∃ r u, row.rate_per_1000 = some r ∧ row.ucl998 = some u ∧
          u < (r : ℝ)) ∧
      (row.outlier = "low" ↔
        ∃ r l, row.rate_per_1000 = some r ∧ row.lcl998 = some l ∧
          (r : ℝ) < l) ∧
      (row.rate_per_1000 = none → row.outlier = "") ∧
      (∀ r : ℚ, row.rate_per_1000 = some r →
        row.ucl998 = some ((r : ℚ) : ℝ) → row.outlier = "") ∧
      (∀ r : ℚ, row.rate_per_1000 = some r →
        row.lcl998 = some ((r : ℚ) : ℝ) → row.outlier = "") := by
  constructor
  · cases df with
    | nil => rfl
    | cons a as => rw [compute_metrics_rows (List.cons_ne_nil a as), List.length_map]
  · intro row hrow
    have hrow' : ∃ e ∈ entityIds df, row = mkMetricsRow df e := by
      cases df with
      | nil => simp [compute_metrics] at hrow
      | cons a as =>
          rw [compute_metrics_rows (List.cons_ne_nil a as)] at hrow
          obtain ⟨e, he, rfl⟩ := List.mem_map.mp hrow
          exact ⟨e, he, rfl⟩
    obtain ⟨e, he, rfl⟩ := hrow'
    cases hr : rate_per_1000 df e with
    | none =>
        refine ⟨rfl, ?_, ?_, fun _ => ?_, ?_, ?_⟩
        · constructor
          · intro h
            rw [show (mkMetricsRow df e).outlier =
                classify ((rate_per_1000 df e).map (fun q => (q : ℝ)))
                  (ucl998 df e) (lcl998 df e) from rfl, hr] at h
            exact absurd h (by simp [classify])
          · rintro ⟨r, u, hrr, -, -⟩
            rw [show (mkMetricsRow df e).rate_per_1000 = rate_per_1000 df e
              from rfl, hr] at hrr
            exact absurd hrr (by simp)
        · constructor
          · intro h
            rw [show (mkMetricsRow df e).outlier =
                classify ((rate_per_1000 df e).map (fun q => (q : ℝ)))
                  (ucl998 df e) (lcl998 df e) from rfl, hr] at h
            exact absurd h (by simp [classify])
          · rintro ⟨r, l, hrr, -, -⟩
            rw [show (mkMetricsRow df e).rate_per_1000 = rate_per_1000 df e
              from rfl, hr] at hrr
            exact absurd hrr (by simp)
        · rw [show (mkMetricsRow df e).outlier =
            classify ((rate_per_1000 df e).map (fun q => (q : ℝ)))
              (ucl998 df e) (lcl998 df e) from rfl, hr]
          rfl
        · intro r hrr
          rw [show (mkMetricsRow df e).rate_per_1000 = rate_per_1000 df e
            from rfl, hr] at hrr
          exact absurd hrr (by simp)
        · intro r hrr
          rw [show (mkMetricsRow df e).rate_per_1000 = rate_per_1000 df e
            from rfl, hr] at hrr
          exact absurd hrr (by simp)
    | some r =>
        obtain ⟨m, hm, hs, hu, hl⟩ := limits998_defined_of_rate he hr
        have hlu : (m : ℝ) - 3.09 * Real.sqrt ((m : ℝ) / entitySize df e) ≤
            (m : ℝ) + 3.09 * Real.sqrt ((m : ℝ) / entitySize df e) := by
          have : (0:ℝ) ≤ 3.09 * Real.sqrt ((m : ℝ) / entitySize df e) := by
            positivity
          linarith
        have hout : (mkMetricsRow df e).outlier =
            classify (some ((r : ℚ) : ℝ))
              (some ((m : ℝ) + 3.09 * Real.sqrt ((m : ℝ) / entitySize df e)))
              (some ((m : ℝ) - 3.09 * Real.sqrt ((m : ℝ) / entitySize df e))) := by
          show classify ((rate_per_1000 df e).map (fun q => (q : ℝ)))
              (ucl998 df e) (lcl998 df e) = _
          rw [hr, hu, hl]
          rfl
        have hspec := classify_spec ((r : ℚ) : ℝ)
          ((m : ℝ) + 3.09 * Real.sqrt ((m : ℝ) / entitySize df e))
          ((m : ℝ) - 3.09 * Real.sqrt ((m : ℝ) / entitySize df e)) hlu
        refine ⟨rfl, ?_, ?_, ?_, ?_, ?_⟩
        · rw [hout]
          constructor
          · intro h
            exact ⟨r, _, by rw [show (mkMetricsRow df e).rate_per_1000 =
              rate_per_1000 df e from rfl, hr],
              by rw [show (mkMetricsRow df e).ucl998 = ucl998 df e from rfl, hu],
              (hspec.1.mp h)⟩
          · rintro ⟨r', u', hr', hu', hcmp⟩
            rw [show (mkMetricsRow df e).rate_per_1000 = rate_per_1000 df e
              from rfl, hr, Option.some.injEq] at hr'
            rw [show (mkMetricsRow df e).ucl998 = ucl998 df e from rfl, hu,
              Option.some.injEq] at hu'
            subst hr'
            subst hu'
            exact hspec.1.mpr hcmp
        · rw [hout]
          constructor
          · intro h
            exact ⟨r, _, by rw [show (mkMetricsRow df e).rate_per_1000 =
              rate_per_1000 df e from rfl, hr],
              by rw [show (mkMetricsRow df e).lcl998 = lcl998 df e from rfl, hl],
              (hspec.2.1.mp h)⟩
          · rintro ⟨r', l', hr', hl', hcmp⟩
            rw [show (mkMetricsRow df e).rate_per_1000 = rate_per_1000 df e
              from rfl, hr, Option.some.injEq] at hr'
            rw [show (mkMetricsRow df e).lcl998 = lcl998 df e from rfl, hl,
              Option.some.injEq] at hl'
            subst hr'
            subst hl'
            exact hspec.2.1.mpr hcmp
        · intro h
          rw [show (mkMetricsRow df e).rate_per_1000 = rate_per_1000 df e
            from rfl, hr] at h
          exact absurd h (by simp)
        · intro r' hr' hu'
          rw [show (mkMetricsRow df e).rate_per_1000 = rate_per_1000 df e
            from rfl, hr, Option.some.injEq] at hr'
          subst hr'
          rw [show (mkMetricsRow df e).ucl998 = ucl998 df e from rfl, hu,
            Option.some.injEq] at hu'
          rw [hout, hspec.2.2]
          refine ⟨?_, ?_⟩
          · rw [hu']
            exact lt_irrefl _
          · intro hcmp
            linarith
        · intro r' hr' hl'
          rw [show (mkMetricsRow df e).rate_per_1000 = rate_per_1000 df e
            from rfl, hr, Option.some.injEq] at hr'
          subst hr'
          rw [show (mkMetricsRow df e).lcl998 = lcl998 df e from rfl, hl,
            Option.some.injEq] at hl'
          rw [hout, hspec.2.2]
          refine ⟨?_, ?_⟩
          · intro hcmp
            linarith
          · rw [hl']
            exact lt_irrefl _

/-- Witness for C3 at the two-practice example input, row of practice A. -/
theorem C3_outlier_classification_witness :
    (compute_metrics exDf).rows.length = (entityIds exDf).length ∧
    ((mkMetricsRow exDf "A").outlier = "high" ↔
      ∃ r u, (mkMetricsRow exDf "A").rate_per_1000 = some r ∧
        (mkMetricsRow exDf "A").ucl998 = some u ∧ u < (r : ℝ)) :=
  ⟨(C3_outlier_classification exDf).1,
    ((C3_outlier_classification exDf).2 (mkMetricsRow exDf "A")
      (by
        rw [compute_metrics_rows (by decide : exDf ≠ [])]
        exact List.mem_map_of_mem _ (by decide))).2.1⟩

/-- C8: when no entity has a defined rate (every aggregated list size is 0),
the run still completes: the mean is NaN, every entity still gets its row,
and on every row the rate, the mean and all four limits are NaN while the
outlier flag is the empty (`none`) label. -/
theorem C8_degenerate_aggregate (df : List Row) (hne : df ≠ [])
    (h0 : ∀ e ∈ entityIds df, total_list_size df e = 0) :
    mean_rate df = none ∧
    (compute_metrics df).rows.length = (entityIds df).length ∧
    ∀ row ∈ (compute_metrics df).rows,
      row.rate_per_1000 = none ∧ row.mean_rate = none ∧
      row.ucl95 = none ∧ row.lcl95 = none ∧
      row.ucl998 = none ∧ row.lcl998 = none ∧
      row.outlier = "" := by
  have hrate : ∀ e ∈ entityIds df, rate_per_1000 df e = none := by
    intro e he
    rw [rate_eq_none_iff, h0 e he]
    exact lt_irrefl 0
  have hdef : definedRates df = [] := by
    rw [definedRates, List.filterMap_eq_nil_iff]
    intro e he
    exact hrate e he
  have hmean : mean_rate df = none := by rw [mean_rate, if_pos hdef]
  have hmr := meanRateR_eq_none hmean
  refine ⟨hmean, ?_, ?_⟩
  · rw [compute_metrics_rows hne, List.length_map]
  · intro row hrow
    rw [compute_metrics_rows hne] at hrow
    obtain ⟨e, he, rfl⟩ := List.mem_map.mp hrow
    have hr : rate_per_1000 df e = none := hrate e he
    refine ⟨hr, hmean, ?_, ?_, ?_, ?_, ?_⟩
    · show ucl95 df e = none
      unfold ucl95
      rw [hmr]; rfl
    · show lcl95 df e = none
      unfold lcl95
      rw [hmr]; rfl
    · show ucl998 df e = none
      unfold ucl998
      rw [hmr]; rfl
    · show lcl998 df e = none
      unfold lcl998
      rw [hmr]; rfl
    · show classify ((rate_per_1000 df e).map (fun q => (q : ℝ)))
          (ucl998 df e) (lcl998 df e) = ""
      rw [hr]
      rfl

/-- Witness for C8: a one-row input whose only observation has a missing
list size, so the only entity aggregates to list size 0. -/
theorem C8_degenerate_aggregate_witness :
    mean_rate degDf = none ∧
    (compute_metrics degDf).rows.length = (entityIds degDf).length ∧
    ∀ row ∈ (compute_metrics degDf).rows,
      row.rate_per_1000 = none ∧ row.mean_rate = none ∧
      row.ucl95 = none ∧ row.lcl95 = none ∧
      row.ucl998 = none ∧ row.lcl998 = none ∧
      row.outlier = "" :=
  C8_degenerate_aggregate degDf (by decide)
    (by
      intro e he
      have hids : entityIds degDf = ["A"] := by decide
      rw [hids] at he
      simp only [List.mem_singleton] at he
      subst he
      simp [total_list_size, retained, coerceNum, degDf, List.filter])

/-- C6: on the spec's end-to-end example, A's rate is 10, B's is 100, the
mean is 55, both practices share standard error `sqrt 55` (size 1), the
99.8% limits are `55 ± 3.09 * sqrt 55` (≈ 77.9 and ≈ 32.1), B is flagged
`high` and A is flagged `low`. -/
theorem C6_end_to_end :
    rate_per_1000 exDf "A" = some 10 ∧
    rate_per_1000 exDf "B" = some 100 ∧
    mean_rate exDf = some 55 ∧
    ucl998 exDf "A" = some (55 + 3.09 * Real.sqrt 55) ∧
    ucl998 exDf "B" = some (55 + 3.09 * Real.sqrt 55) ∧
    lcl998 exDf "A" = some (55 - 3.09 * Real.sqrt 55) ∧
    lcl998 exDf "B" = some (55 - 3.09 * Real.sqrt 55) ∧
    |55 + 3.09 * Real.sqrt 55 - 77.9| < 0.05 ∧
    |55 - 3.09 * Real.sqrt 55 - 32.1| < 0.05 ∧
    (mkMetricsRow exDf "B").outlier = "high" ∧
    (mkMetricsRow exDf "A").outlier = "low" := by
  have hra : rate_per_1000 exDf "A" = some 10 := by
    simp [rate_per_1000, total_items, total_list_size, retained, coerceNum,
      exDf, List.filter]
  have hrb : rate_per_1000 exDf "B" = some 100 := by
    simp [rate_per_1000, total_items, total_list_size, retained, coerceNum,
      exDf, List.filter]
  have hm : mean_rate exDf = some 55 := by
    simp [mean_rate, definedRates, entityIds, rate_per_1000, total_items,
      total_list_size, retained, coerceNum, exDf, List.filter, List.dedup]
    norm_num
  have hszA : entitySize exDf "A" = 1 := by
    have h : total_list_size exDf "A" = 1000 := by
      simp [total_list_size, retained, coerceNum, exDf, List.filter]
    rw [entitySize, h]
    norm_num
  have hszB : entitySize exDf "B" = 1 := by
    have h : total_list_size exDf "B" = 1000 := by
      simp [total_list_size, retained, coerceNum, exDf, List.filter]
    rw [entitySize, h]
    norm_num
  have hcast55 : ((55 : ℚ) : ℝ) = 55 := by norm_num
  have hdiv : ((55 : ℝ)) / 1 = 55 := by norm_num
  have huA : ucl998 exDf "A" = some (55 + 3.09 * Real.sqrt 55) := by
    unfold ucl998
    rw [meanRateR_eq_some hm, hszA, limits_of_pos one_pos, hcast55, hdiv]
  have huB : ucl998 exDf "B" = some (55 + 3.09 * Real.sqrt 55) := by
    unfold ucl998
    rw [meanRateR_eq_some hm, hszB, limits_of_pos one_pos, hcast55, hdiv]
  have hlA : lcl998 exDf "A" = some (55 - 3.09 * Real.sqrt 55) := by
    unfold lcl998
    rw [meanRateR_eq_some hm, hszA, limits_of_pos one_pos, hcast55, hdiv]
  have hlB : lcl998 exDf "B" = some (55 - 3.09 * Real.sqrt 55) := by
    unfold lcl998
    rw [meanRateR_eq_some hm, hszB, limits_of_pos one_pos, hcast55, hdiv]
  have hs1 : Real.sqrt 55 < 7.42 :=
    (Real.sqrt_lt' (by norm_num)).mpr (by norm_num)
  have hs2 : (7.41 : ℝ) < Real.sqrt 55 :=
    (Real.lt_sqrt (by norm_num)).mpr (by norm_num)
  have hlu : 55 - 3.09 * Real.sqrt 55 ≤ 55 + 3.09 * Real.sqrt 55 := by
    have := Real.sqrt_nonneg (55 : ℝ)
    linarith
  have houtB : (mkMetricsRow exDf "B").outlier = "high" := by
    have hshow : (mkMetricsRow exDf "B").outlier =
        classify ((rate_per_1000 exDf "B").map (fun q => (q : ℝ)))
          (ucl998 exDf "B") (lcl998 exDf "B") := rfl
    rw [hshow, hrb, huB, hlB]
    have hc : ((100 : ℚ) : ℝ) = 100 := by norm_num
    show classify (some ((100 : ℚ) : ℝ)) _ _ = "high"
    rw [hc]
    exact (classify_spec 100 _ _ hlu).1.mpr (by linarith)
  have houtA : (mkMetricsRow exDf "A").outlier = "low" := by
    have hshow : (mkMetricsRow exDf "A").outlier =
        classify ((rate_per_1000 exDf "A").map (fun q => (q : ℝ)))
          (ucl998 exDf "A") (lcl998 exDf "A") := rfl
    rw [hshow, hra, huA, hlA]
    have hc : ((10 : ℚ) : ℝ) = 10 := by norm_num
    show classify (some ((10 : ℚ) : ℝ)) _ _ = "low"
    rw [hc]
    exact (classify_spec 10 _ _ hlu).2.1.mpr (by linarith)
  refine ⟨hra, hrb, hm, huA, huB, hlA, hlB, ?_, ?_, houtB, houtA⟩
  · rw [abs_lt]
    constructor <;> linarith
  · rw [abs_lt]
    constructor <;> linarith

/-- C7 counterexample: with two zero-rate practices of different list sizes
the mean is 0, every limit is exactly the mean, and both bands have width 0
— the larger practice's band is *not* strictly narrower, refuting the claim
as universally stated. -/
theorem C7_counterexample :
    total_items zeroDf "A" / total_list_size zeroDf "A" =
      total_items zeroDf "B" / total_list_size zeroDf "B" ∧
    total_list_size zeroDf "A" < total_list_size zeroDf "B" ∧
    ucl95 zeroDf "A" = some 0 ∧ lcl95 zeroDf "A" = some 0 ∧
    ucl998 zeroDf "A" = some 0 ∧ lcl998 zeroDf "A" = some 0 ∧
    ucl95 zeroDf "B" = some 0 ∧ lcl95 zeroDf "B" = some 0 ∧
    ucl998 zeroDf "B" = some 0 ∧ lcl998 zeroDf "B" = some 0 ∧
    ¬ ∃ uA lA uB lB : ℝ,
        ucl998 zeroDf "A" = some uA ∧ lcl998 zeroDf "A" = some lA ∧
        ucl998 zeroDf "B" = some uB ∧ lcl998 zeroDf "B" = some lB ∧
        uB - lB < uA - lA := by
  have htiA : total_items zeroDf "A" = 0 := by
    simp [total_items, retained, coerceNum, zeroDf, List.filter]
  have htiB : total_items zeroDf "B" = 0 := by
    simp [total_items, retained, coerceNum, zeroDf, List.filter]
  have htlA : total_list_size zeroDf "A" = 1000 := by
    simp [total_list_size, retained, coerceNum, zeroDf, List.filter]
  have htlB : total_list_size zeroDf "B" = 2000 := by
    simp [total_list_size, retained, coerceNum, zeroDf, List.filter]
  have hm : mean_rate zeroDf = some 0 := by
    simp [mean_rate, definedRates, entityIds, rate_per_1000, total_items,
      total_list_size, retained, coerceNum, zeroDf, List.filter, List.dedup]
  have hszA : entitySize zeroDf "A" = 1 := by
    rw [entitySize, htlA]
    norm_num
  have hszB : entitySize zeroDf "B" = 2 := by
    rw [entitySize, htlB]
    norm_num
  have hlim : ∀ s z : ℝ, 0 < s →
      limits (some ((0 : ℚ) : ℝ)) s z = (some 0, some 0) := by
    intro s z hs
    rw [limits_of_pos hs]
    norm_num
  have h95A : (limits (meanRateR zeroDf) (entitySize zeroDf "A") 1.96) =
      (some 0, some 0) := by
    rw [meanRateR_eq_some hm, hszA]
    exact hlim 1 1.96 one_pos
  have h98A : (limits (meanRateR zeroDf) (entitySize zeroDf "A") 3.09) =
      (some 0, some 0) := by
    rw [meanRateR_eq_some hm, hszA]
    exact hlim 1 3.09 one_pos
  have h95B : (limits (meanRateR zeroDf) (entitySize zeroDf "B") 1.96) =
      (some 0, some 0) := by
    rw [meanRateR_eq_some hm, hszB]
    exact hlim 2 1.96 two_pos
  have h98B : (limits (meanRateR zeroDf) (entitySize zeroDf "B") 3.09) =
      (some 0, some 0) := by
    rw [meanRateR_eq_some hm, hszB]
    exact hlim 2 3.09 two_pos
  refine ⟨by rw [htiA, htiB, htlA, htlB]; norm_num, by rw [htlA, htlB]; norm_num,
    ?_, ?_, ?_, ?_, ?_, ?_, ?_, ?_, ?_⟩
  · rw [ucl95, h95A]
  · rw [lcl95, h95A]
  · rw [ucl998, h98A]
  · rw [lcl998, h98A]
  · rw [ucl95, h95B]
  · rw [lcl95, h95B]
  · rw [ucl998, h98B]
  · rw [lcl998, h98B]
  · rintro ⟨uA, lA, uB, lB, hA, hA2, hB, hB2, hcmp⟩
    rw [ucl998, h98A, Prod.fst] at hA
    rw [lcl998, h98A, Prod.snd] at hA2
    rw [ucl998, h98B, Prod.fst] at hB
    rw [lcl998, h98B, Prod.snd] at hB2
    rw [Option.some.injEq] at hA hA2 hB hB2
    rw [← hA, ← hA2, ← hB, ← hB2] at hcmp
    exact lt_irrefl _ hcmp

/-- C7 (amended): the strict band-narrowing holds under the additional
hypothesis that the population mean rate is (defined and) positive — with a
zero mean all bands have width zero and the strict inequality fails. -/
theorem C7_limit_monotonicity (df : List Row) (e₁ e₂ : String) (m : ℚ)
    (hm : mean_rate df = some m) (hmpos : 0 < m)
    (h1 : 0 < total_list_size df e₁)
    (h12 : total_list_size df e₁ < total_list_size df e₂)
    (hratio : total_items df e₁ * total_list_size df e₂ =
      total_items df e₂ * total_list_size df e₁) :
    ∃ u₁ l₁ u₂ l₂ v₁ w₁ v₂ w₂ : ℝ,
      ucl998 df e₁ = some u₁ ∧ lcl998 df e₁ = some l₁ ∧
      ucl998 df e₂ = some u₂ ∧ lcl998 df e₂ = some l₂ ∧
      ucl95 df e₁ = some v₁ ∧ lcl95 df e₁ = some w₁ ∧
      ucl95 df e₂ = some v₂ ∧ lcl95 df e₂ = some w₂ ∧
      u₂ - l₂ < u₁ - l₁ ∧ v₂ - w₂ < v₁ - w₁ := by
  have hs1 : 0 < entitySize df e₁ := by
    rw [entitySize]
    have h : (0 : ℝ) < ((total_list_size df e₁ : ℚ) : ℝ) := by exact_mod_cast h1
    positivity
  have hs12 : entitySize df e₁ < entitySize df e₂ := by
    rw [entitySize, entitySize]
    have h : ((total_list_size df e₁ : ℚ) : ℝ) <
        ((total_list_size df e₂ : ℚ) : ℝ) := by exact_mod_cast h12
    gcongr
  have hs2 : 0 < entitySize df e₂ := lt_trans hs1 hs12
  have hmr : (0 : ℝ) < ((m : ℚ) : ℝ) := by exact_mod_cast hmpos
  have hdivlt : ((m : ℚ) : ℝ) / entitySize df e₂ <
      ((m : ℚ) : ℝ) / entitySize df e₁ :=
    div_lt_div_of_pos_left hmr hs1 hs12
  have hsqrt : Real.sqrt (((m : ℚ) : ℝ) / entitySize df e₂) <
      Real.sqrt (((m : ℚ) : ℝ) / entitySize df e₁) :=
    Real.sqrt_lt_sqrt (by positivity) hdivlt
  have hmm := meanRateR_eq_some hm
  refine ⟨((m : ℚ) : ℝ) + 3.09 * Real.sqrt (((m : ℚ) : ℝ) / entitySize df e₁),
    ((m : ℚ) : ℝ) - 3.09 * Real.sqrt (((m : ℚ) : ℝ) / entitySize df e₁),
    ((m : ℚ) : ℝ) + 3.09 * Real.sqrt (((m : ℚ) : ℝ) / entitySize df e₂),
    ((m : ℚ) : ℝ) - 3.09 * Real.sqrt (((m : ℚ) : ℝ) / entitySize df e₂),
    ((m : ℚ) : ℝ) + 1.96 * Real.sqrt (((m : ℚ) : ℝ) / entitySize df e₁),
    ((m : ℚ) : ℝ) - 1.96 * Real.sqrt (((m : ℚ) : ℝ) / entitySize df e₁),
    ((m : ℚ) : ℝ) + 1.96 * Real.sqrt (((m : ℚ) : ℝ) / entitySize df e₂),
    ((m : ℚ) : ℝ) - 1.96 * Real.sqrt (((m : ℚ) : ℝ) / entitySize df e₂),
    ?_, ?_, ?_, ?_, ?_, ?_, ?_, ?_, ?_, ?_⟩
  · rw [ucl998, hmm, limits_of_pos hs1]
  · rw [lcl998, hmm, limits_of_pos hs1]
  · rw [ucl998, hmm, limits_of_pos hs2]
  · rw [lcl998, hmm, limits_of_pos hs2]
  · rw [ucl95, hmm, limits_of_pos hs1]
  · rw [lcl95, hmm, limits_of_pos hs1]
  · rw [ucl95, hmm, limits_of_pos hs2]
  · rw [lcl95, hmm, limits_of_pos hs2]
  · linarith
  · linarith

/-- Witness for C7 (amended) at two 1%-ratio practices of sizes 1000 and
2000, mean rate 10. -/
theorem C7_limit_monotonicity_witness :
    ∃ u₁ l₁ u₂ l₂ v₁ w₁ v₂ w₂ : ℝ,
      ucl998 monoDf "A" = some u₁ ∧ lcl998 monoDf "A" = some l₁ ∧
      ucl998 monoDf "B" = some u₂ ∧ lcl998 monoDf "B" = some l₂ ∧
      ucl95 monoDf "A" = some v₁ ∧ lcl95 monoDf "A" = some w₁ ∧
      ucl95 monoDf "B" = some v₂ ∧ lcl95 monoDf "B" = some w₂ ∧
      u₂ - l₂ < u₁ - l₁ ∧ v₂ - w₂ < v₁ - w₁ :=
  C7_limit_monotonicity monoDf "A" "B" 10
    (by
      simp [mean_rate, definedRates, entityIds, rate_per_1000, total_items,
        total_list_size, retained, coerceNum, monoDf, List.filter, List.dedup]
      try norm_num)
    (by norm_num)
    (by
      simp [total_list_size, retained, coerceNum, monoDf, List.filter]
      try norm_num)
    (by
      simp [total_list_size, retained, coerceNum, monoDf, List.filter]
      try norm_num)
    (by
      simp [total_items, total_list_size, retained, coerceNum, monoDf,
        List.filter]
      try norm_num)

end Analyze
